import Mathlib

/-!
A verification development for the file-buddy safety gate.

The definitions below are a shallow embedding of the Python sources:
  - `src/config/security_config.py` (thresholds, confirm sets, sensitive data)
  - `src/config/risk_assesment.py`  (RiskAssessor)
  - `src/core/confirmation.py`      (ConfirmationManager)
  - `src/config/policies.py` and `src/utils/path_utils.py` (path safety)
  - `src/config/security.py`        (PathValidator)
  - `src/core/snapshot.py`          (SnapshotManager.rollback)
  - `src/core/retry_handler.py`     (CircuitBreaker)
  - `src/core/safety.py`            (SafetyChecker)

Machine-level details that the claims do not touch (logging, uuid/md5 id
generation, float second fractions, human-readable factor strings) are
abstracted; every branching decision of the source is kept.
-/

namespace FileBuddy

/-! ### String helpers: Python `in`, `startswith`, `lower`, `strip` -/

/-- Python substring test `needle in hay`, on explicit character lists. -/
def containsChars (needle : List Char) : List Char → Bool
  | [] => needle.isEmpty
  | c :: rest => needle.isPrefixOf (c :: rest) || containsChars needle rest

/-- Python `needle in hay` for strings. -/
def pyIn (needle hay : String) : Bool :=
  containsChars needle.data hay.data

/-- Python `s.startswith(pre)`. -/
def strStarts (s pre : String) : Bool :=
  pre.data.isPrefixOf s.data

/-- Python `s.lower()` (ASCII lowering, as all compared literals are ASCII). -/
def pyLower (s : String) : String :=
  ⟨s.data.map Char.toLower⟩

/-- Whitespace for Python `strip`. -/
def isSpaceChar (c : Char) : Bool :=
  c = ' ' || c = '\t' || c = '\n' || c = '\r'

/-- Python `s.lower().strip()`. -/
def pyNormalize (s : String) : String :=
  let lowered := s.data.map Char.toLower
  ⟨((lowered.dropWhile isSpaceChar).reverse.dropWhile isSpaceChar).reverse⟩

/-! ### Risk levels and security configuration (`security_config.py`) -/

/-- The `RiskLevel` enum of `risk_assesment.py`. -/
inductive RiskLevel where
  | safe
  | low
  | medium
  | high
  | critical
  deriving DecidableEq, Repr

/-- Embeds `SecurityConfig.RISK_LOW_FILE_COUNT`. -/
def RISK_LOW_FILE_COUNT : Nat := 10

/-- Embeds `SecurityConfig.RISK_MEDIUM_FILE_COUNT`. -/
def RISK_MEDIUM_FILE_COUNT : Nat := 50

/-- Embeds `SecurityConfig.RISK_HIGH_FILE_COUNT`. -/
def RISK_HIGH_FILE_COUNT : Nat := 200

/-- Embeds `SecurityConfig.RISK_LOW_SIZE` (10MB in bytes). -/
def RISK_LOW_SIZE : Nat := 10 * 1024 * 1024

/-- Embeds `SecurityConfig.RISK_MEDIUM_SIZE` (100MB in bytes). -/
def RISK_MEDIUM_SIZE : Nat := 100 * 1024 * 1024

/-- Embeds `SecurityConfig.RISK_HIGH_SIZE` (500MB in bytes). -/
def RISK_HIGH_SIZE : Nat := 500 * 1024 * 1024

/-- Embeds `SecurityConfig.ENABLE_AUTO_BACKUP`. -/
def ENABLE_AUTO_BACKUP : Bool := true

/-- Embeds `SecurityConfig.ALWAYS_CONFIRM_OPERATIONS`. -/
def ALWAYS_CONFIRM_OPERATIONS : List String :=
  ["delete_files", "delete_folder", "delete_multiple_folders",
   "delete_mixed_items", "move_folder_contents", "flatten_folder"]

/-- Embeds `SecurityConfig.NEVER_CONFIRM_OPERATIONS`. -/
def NEVER_CONFIRM_OPERATIONS : List String :=
  ["scan_folder", "search_files", "get_file_info", "read_file_content",
   "preview_file", "read_folder_tree", "search_file_contents",
   "detect_project_type", "show_history", "peek_last_action",
   "system_state", "list_available_snapshots"]

/-! ### Risk assessor (`risk_assesment.py`)

`assess_operation` consumes the filesystem only through the derived
quantities `len(paths)`, `_calculate_total_size(paths)` and the four
boolean path checks (sensitive directory, protected file, system file)
plus the `recursive` kwarg; the embedding takes those quantities as
arguments. -/

/-- Embeds `RiskAssessor._get_base_operation_risk`. -/
def get_base_operation_risk (operation : String) : Nat :=
  if ["delete_folder", "delete_multiple_folders", "flatten_folder"].contains operation then 60
  else if ["delete_files", "delete_mixed_items"].contains operation then 50
  else if ["move_folder_contents", "copy_folder_contents"].contains operation then 35
  else if ["move_files", "rename_file", "batch_rename"].contains operation then 20
  else if ["organize_folder", "organize_by_size", "organize_by_extension"].contains operation then 15
  else if ["copy_files", "create_folder", "create_file"].contains operation then 5
  else if NEVER_CONFIRM_OPERATIONS.contains operation then 0
  else 25

/-- The file-count additive term of `assess_operation` (the +40/+25/+10 ladder). -/
def file_count_bonus (file_count : Nat) : Nat :=
  if RISK_HIGH_FILE_COUNT < file_count then 40
  else if RISK_MEDIUM_FILE_COUNT < file_count then 25
  else if RISK_LOW_FILE_COUNT < file_count then 10
  else 0

/-- The total-size additive term of `assess_operation` (the +30/+20/+10 ladder). -/
def size_bonus (total_size : Nat) : Nat :=
  if RISK_HIGH_SIZE < total_size then 30
  else if RISK_MEDIUM_SIZE < total_size then 20
  else if RISK_LOW_SIZE < total_size then 10
  else 0

/-- Embeds `RiskAssessor._score_to_level`. -/
def score_to_level (score : Nat) : RiskLevel :=
  if 80 ≤ score then RiskLevel.critical
  else if 60 ≤ score then RiskLevel.high
  else if 35 ≤ score then RiskLevel.medium
  else if 15 ≤ score then RiskLevel.low
  else RiskLevel.safe

/-- Embeds `RiskAssessor._requires_confirmation`. -/
def requires_confirmation_rule (operation : String) (level : RiskLevel) : Bool :=
  if ALWAYS_CONFIRM_OPERATIONS.contains operation then true
  else if NEVER_CONFIRM_OPERATIONS.contains operation then false
  else [RiskLevel.medium, RiskLevel.high, RiskLevel.critical].contains level

/-- The `destructive_ops` set inside `RiskAssessor._requires_backup`. -/
def destructive_ops : List String :=
  ["delete_files", "delete_folder", "delete_multiple_folders",
   "delete_mixed_items", "move_files", "move_folder_contents"]

/-- Embeds `RiskAssessor._requires_backup`. -/
def requires_backup_rule (operation : String) (level : RiskLevel) : Bool :=
  if ENABLE_AUTO_BACKUP = false then false
  else destructive_ops.contains operation &&
       [RiskLevel.medium, RiskLevel.high, RiskLevel.critical].contains level

/-- The `RiskAssessment` dataclass (the presentation fields `factors` and
`recommendation`, which are derived strings, are omitted). -/
structure RiskAssessment where
  level : RiskLevel
  score : Nat
  requires_confirmation : Bool
  requires_backup : Bool
  deriving DecidableEq, Repr

/-- The additive raw score accumulated by `RiskAssessor.assess_operation`
before clamping. -/
def raw_score (operation : String) (file_count total_size : Nat)
    (sensitive protected_file recursive_flag system_file : Bool) : Nat :=
  get_base_operation_risk operation
    + file_count_bonus file_count
    + size_bonus total_size
    + (if sensitive then 25 else 0)
    + (if protected_file then 20 else 0)
    + (if recursive_flag then 15 else 0)
    + (if system_file then 30 else 0)

/-- Embeds `RiskAssessor.assess_operation`: the level comes from the raw score, the
reported score is clamped to 100. -/
def assess_operation (operation : String) (file_count total_size : Nat)
    (sensitive protected_file recursive_flag system_file : Bool) : RiskAssessment :=
  let score := raw_score operation file_count total_size
      sensitive protected_file recursive_flag system_file
  let level := score_to_level score
  { level := level
    score := min score 100
    requires_confirmation := requires_confirmation_rule operation level
    requires_backup := requires_backup_rule operation level }

/-! ### Confirmation manager (`confirmation.py`)

The pending table `self.pending` is a dict keyed by operation id; it is
modelled as an association list with unique keys (insert overwrites).
`confirm_operation`, `cancel_operation` and the post-sleep body of
`_timeout_handler` perform their membership check, audit write and
deletion with no intervening `await`, so under the cooperative asyncio
scheduler each runs atomically; they are embedded as atomic steps. -/

/-- The `ConfirmationRequest` dataclass (`details` kwargs kept as string pairs). -/
structure ConfirmationRequest where
  operation_id : String
  operation_type : String
  paths : List String
  risk_assessment : RiskAssessment
  user_id : String
  timestamp : String
  details : List (String × String)
  backup_id : Option String
  deriving DecidableEq, Repr

/-- The risk-scaled response classification inside
`ConfirmationManager.confirm_operation` (lines 332-349). -/
def classify_response (level : RiskLevel) (user_response : String) : Bool :=
  let r := pyNormalize user_response
  if level = RiskLevel.critical then
    pyIn "yes i confirm" r
  else if level = RiskLevel.high then
    pyIn "confirm" r && !(pyIn "cancel" r)
  else
    (pyIn "yes" r || pyIn "confirm" r) && !(pyIn "no" r) && !(pyIn "cancel" r)

/-- One audit record as written by the three terminal paths of the
confirmation manager (the `details` dict is kept as its `operation_id`
key plus the optional `reason` key). -/
structure AuditEntry where
  user_id : String
  operation : String
  risk_level : RiskLevel
  paths : List String
  success : Bool
  operation_id : String
  reason : Option String
  deriving DecidableEq, Repr

/-- The pending-confirmation table `self.pending`. -/
abbrev PendingTable := List (String × ConfirmationRequest)

/-- Dict lookup `self.pending.get(operation_id)`. -/
def lookupReq (tbl : PendingTable) (operation_id : String) : Option ConfirmationRequest :=
  (tbl.find? (fun kv => kv.1 = operation_id)).map (·.2)

/-- Dict deletion `del self.pending[operation_id]`. -/
def eraseReq (tbl : PendingTable) (operation_id : String) : PendingTable :=
  tbl.filter (fun kv => ¬ kv.1 = operation_id)

/-- Dict assignment `self.pending[operation_id] = request`. -/
def insertReq (tbl : PendingTable) (operation_id : String) (req : ConfirmationRequest) : PendingTable :=
  (operation_id, req) :: eraseReq tbl operation_id

/-- Embeds `ConfirmationManager.confirm_operation`: returns `(confirmed, request)`
together with the updated pending table and the audit records written. -/
def confirm_operation (tbl : PendingTable) (operation_id user_response : String) :
    (Bool × Option ConfirmationRequest) × PendingTable × List AuditEntry :=
  match lookupReq tbl operation_id with
  | none => ((false, none), tbl, [])
  | some req =>
    let confirmed := classify_response req.risk_assessment.level user_response
    ((confirmed, some req), eraseReq tbl operation_id,
      [{ user_id := req.user_id
         operation := req.operation_type ++ "_confirmation"
         risk_level := req.risk_assessment.level
         paths := req.paths
         success := confirmed
         operation_id := operation_id
         reason := none }])

/-- Embeds `ConfirmationManager.cancel_operation`. -/
def cancel_operation (tbl : PendingTable) (operation_id : String) :
    Bool × PendingTable × List AuditEntry :=
  match lookupReq tbl operation_id with
  | none => (false, tbl, [])
  | some req =>
    (true, eraseReq tbl operation_id,
      [{ user_id := req.user_id
         operation := req.operation_type ++ "_cancelled"
         risk_level := req.risk_assessment.level
         paths := req.paths
         success := true
         operation_id := operation_id
         reason := some "user_cancelled" }])

/-- The body of `ConfirmationManager._timeout_handler` after its sleep. -/
def timeout_fire (tbl : PendingTable) (operation_id : String) :
    PendingTable × List AuditEntry :=
  match lookupReq tbl operation_id with
  | none => (tbl, [])
  | some req =>
    (eraseReq tbl operation_id,
      [{ user_id := req.user_id
         operation := req.operation_type ++ "_timeout"
         risk_level := req.risk_assessment.level
         paths := req.paths
         success := false
         operation_id := operation_id
         reason := some "timeout" }])

/-- The events that touch the pending table: the store performed by
`request_confirmation` and the three resolution paths. -/
inductive CMEvent where
  | submit (operation_id : String) (req : ConfirmationRequest)
  | confirm (operation_id : String) (response : String)
  | cancel (operation_id : String)
  | timeout (operation_id : String)

/-- One atomic scheduler step of the confirmation manager. -/
def cmStep (tbl : PendingTable) : CMEvent → PendingTable × List AuditEntry
  | CMEvent.submit operation_id req => (insertReq tbl operation_id req, [])
  | CMEvent.confirm operation_id response => (confirm_operation tbl operation_id response).2
  | CMEvent.cancel operation_id => (cancel_operation tbl operation_id).2
  | CMEvent.timeout operation_id => timeout_fire tbl operation_id

/-- Run the confirmation manager over a trace of interleaved events,
collecting all audit records written. -/
def cmRun (tbl : PendingTable) : List CMEvent → PendingTable × List AuditEntry
  | [] => (tbl, [])
  | e :: es =>
    let (tbl1, a1) := cmStep tbl e
    let (tbl2, a2) := cmRun tbl1 es
    (tbl2, a1 ++ a2)

/-- Number of terminal audit records written for a given operation id. -/
def termCount (operation_id : String) (l : List AuditEntry) : Nat :=
  l.countP (fun e => e.operation_id = operation_id)

/-- Number of times a given operation id is stored into the pending table. -/
def submitCount (operation_id : String) : List CMEvent → Nat
  | [] => 0
  | CMEvent.submit i _ :: es =>
    (if i = operation_id then 1 else 0) + submitCount operation_id es
  | _ :: es => submitCount operation_id es

/-! ### Path policy (`policies.py`, `path_utils.py`, `security.py`)

A canonical absolute path is its list of components below the root
(`/home/user/x` is `["home", "user", "x"]`); the embedding works on
already-resolved paths, so `Path.resolve()` is the identity.  The string
rendering used by the `startswith` checks of `is_path_safe` is derived
from the components. -/

/-- A canonical absolute filesystem path, as components below the root. -/
abbrev PyPath := List String

/-- Python `str(path)` for a canonical absolute path. -/
def pathStr (p : PyPath) : String :=
  if p.isEmpty then "/" else p.foldl (fun acc comp => acc ++ "/" ++ comp) ""

/-- Embeds `policies.FORBIDDEN_PATHS` on the Linux branch of `get_forbidden_paths`. -/
def FORBIDDEN_PATHS : List String :=
  ["/System", "/usr", "/bin", "/sbin", "/etc",
   "/var", "/boot", "/dev", "/proc", "/sys", "/tmp", "/root"]

/-- Embeds `policies.EXECUTABLE_EXTENSIONS`. -/
def EXECUTABLE_EXTENSIONS : List String :=
  [".exe", ".dmg", ".app", ".sh", ".bat", ".cmd", ".msi", ".run"]

/-- Embeds `policies.DEFAULT_ALLOWED_FOLDERS`, parametric in the home directory. -/
def DEFAULT_ALLOWED_FOLDERS (home : PyPath) : List PyPath :=
  [home ++ ["Downloads"], home ++ ["Desktop"], home ++ ["Documents"]]

/-- A hidden path segment in the sense of `is_path_safe`:
`part.startswith('.') and part not in ['.', '..']`. -/
def hidden_part (part : String) : Bool :=
  strStarts part "." && ¬ part = "." && ¬ part = ".."

/-- Embeds `policies.is_path_safe` on a resolved path: forbidden string prefixes
first, then hidden segments among `parts[:-1]` (the root component `/`
of `Path.parts` never starts with a dot, so it is dropped). -/
def is_path_safe (p : PyPath) : Bool :=
  if FORBIDDEN_PATHS.any (fun forbidden => strStarts (pathStr p) forbidden) then false
  else if p.dropLast.any hidden_part then false
  else true

/-- Embeds `path_utils.validate_path` on a resolved path; filesystem existence is
abstracted by the predicates for the path and its parent. -/
def validate_path (p : PyPath) (must_exist : Bool)
    (fs_exists parent_exists : PyPath → Bool) : Except String PyPath :=
  if is_path_safe p = false then
    Except.error ("Cannot access " ++ pathStr p ++ " - protected system directory.")
  else if must_exist && !(fs_exists p) then
    if parent_exists p.dropLast then
      Except.error ((p.getLast?.getD "") ++ " not found in parent.")
    else
      Except.error ("Path " ++ pathStr p ++ " does not exist.")
  else
    Except.ok p

/-- Embeds `Path.is_relative_to` on canonical paths: component-list prefix. -/
def is_under (base p : PyPath) : Bool :=
  base.isPrefixOf p

/-- Embeds `security_config.get_allowed_base_paths` on the Unix branch,
parametric in the home directory. -/
def ALLOWED_BASE_PATHS (home : PyPath) : List PyPath :=
  [home ++ ["Documents"], home ++ ["Desktop"], home ++ ["Downloads"],
   home ++ ["Pictures"], home ++ ["Videos"], home ++ ["Music"],
   home ++ ["Projects"], home ++ ["workspace"], ["tmp", "filebuddy"]]

/-- Embeds `security_config.get_forbidden_paths` on the Unix branch,
parametric in the home directory. -/
def CONFIG_FORBIDDEN_PATHS (home : PyPath) : List PyPath :=
  [["System"], ["Library"], ["bin"], ["sbin"], ["usr", "bin"], ["usr", "sbin"],
   ["etc"], ["var"], ["private"],
   home ++ [".ssh"], home ++ [".aws"], home ++ [".config"]]

/-- Embeds `PathValidator._is_under_allowed_paths`. -/
def pv_under_allowed (allowed : List PyPath) (p : PyPath) : Bool :=
  allowed.any (fun a => is_under a p)

/-- Embeds `PathValidator._is_forbidden_path`. -/
def pv_forbidden (forbidden : List PyPath) (p : PyPath) : Bool :=
  forbidden.any (fun f => is_under f p)

/-- Embeds `PathValidator._contains_forbidden_pattern`. -/
def pv_has_pattern (patterns : List String) (p : PyPath) : Bool :=
  patterns.any (fun pat =>
    pyIn (pyLower pat) (pyLower (pathStr p)) || p.contains pat)

/-- Split a character list on the dot character (Python `name.split('.')`). -/
def splitOnDot : List Char → List (List Char)
  | [] => [[]]
  | c :: rest =>
    let r := splitOnDot rest
    if c = '.' then [] :: r
    else
      match r with
      | [] => [[c]]
      | h :: t => (c :: h) :: t

/-- Python `PurePath.suffix` of a file name: the part from the last dot,
empty when the name has no dot, starts with its only dot, or ends in a dot. -/
def suffix_of (name : String) : String :=
  match splitOnDot name.data with
  | [] => ""
  | [_] => ""
  | parts =>
    let last := (parts.getLast?).getD []
    if last.isEmpty then ""
    else if parts.length = 2 && ((parts.head?).getD [' ']).isEmpty then ""
    else ⟨'.' :: last⟩

/-- Embeds `Path.name`: the final component. -/
def name_of (p : PyPath) : String :=
  (p.getLast?).getD ""

/-- The `protected_files` set of `SecurityConfig.is_protected_file`. -/
def PROTECTED_FILES : List String :=
  [".gitignore", ".dockerignore", "requirements.txt", "package.json",
   "Cargo.toml", "go.mod", "pom.xml", "README.md", "LICENSE"]

/-- Embeds `SecurityConfig.is_protected_file`. -/
def is_protected_file (p : PyPath) : Bool :=
  PROTECTED_FILES.contains (name_of p)

/-- Embeds `security_config.get_forbidden_extensions`. -/
def CONFIG_FORBIDDEN_EXTENSIONS : List String :=
  [".dll", ".sys", ".exe", ".so", ".dylib", ".pem", ".key", ".p12", ".pfx"]

/-- Embeds `PathValidator.validate_path` (`security.py`) on a resolved path; the
configuration lists are parameters (the constructor loads them from
`security_config`), and `is_file` abstracts `resolved.is_file()`. -/
def pv_validate_path (allowed forbidden : List PyPath) (patterns : List String)
    (forbidden_ext : List String) (p : PyPath) (operation : String)
    (is_file : Bool) : Except String PyPath :=
  if !(pv_under_allowed allowed p) then
    Except.error ("Path " ++ pathStr p ++ " is outside allowed directories")
  else if pv_forbidden forbidden p then
    Except.error ("Path " ++ pathStr p ++ " is in a forbidden directory")
  else if pv_has_pattern patterns p then
    Except.error ("Path " ++ pathStr p ++ " contains forbidden patterns")
  else if operation = "delete" && is_file
      && forbidden_ext.contains (pyLower (suffix_of (name_of p))) then
    Except.error ("Cannot delete files with extension " ++ suffix_of (name_of p))
  else if (operation = "delete" || operation = "modify") && is_file
      && is_protected_file p then
    Except.error ("File " ++ name_of p ++ " is protected")
  else
    Except.ok p

/-! ### Snapshot manager (`snapshot.py`)

The filesystem is abstracted as the lists of existing file paths and
directory paths (rendered strings); `shutil.move` of a file is removal
at the source plus presence at the destination.  The `except` branches
around `shutil.move`/`rmdir` model I/O faults, which the pure model does
not produce, so `failed` stays `0` here. -/

/-- Embeds `settings.SNAPSHOT_RETENTION_HOURS` default. -/
def SNAPSHOT_RETENTION_HOURS : Nat := 24

/-- The `Snapshot` dataclass (`created_at` as seconds since the epoch;
`metadata` is presentation only and omitted). -/
structure Snapshot where
  snapshot_id : String
  operation_type : String
  file_states : List (String × String)
  folders_created : List String
  created_at : Nat
  deriving DecidableEq, Repr

/-- Embeds `Snapshot.is_expired`: age in seconds beyond the retention window
(`age_hours > SNAPSHOT_RETENTION_HOURS` over exact seconds). -/
def Snapshot.is_expired (s : Snapshot) (now : Nat) : Bool :=
  SNAPSHOT_RETENTION_HOURS * 3600 < now - s.created_at

/-- Abstract filesystem state: existing files and existing directories. -/
structure FS where
  files : List String
  dirs : List String
  deriving DecidableEq, Repr

/-- Strict containment of a path inside a directory, on rendered paths. -/
def path_inside (dir p : String) : Bool :=
  strStarts p (dir ++ "/")

/-- Embeds `not any(folder.iterdir())`: the directory has no entry below it. -/
def dir_empty (fs : FS) (dir : String) : Bool :=
  !(fs.files.any (path_inside dir)) && !(fs.dirs.any (path_inside dir))

/-- The file-restore loop of `SnapshotManager.rollback`: for each
`(current, original)` pair in order, if `current` exists it is moved back
to `original`; returns the new filesystem and the `restored` counter. -/
def restore_files (fs : FS) : List (String × String) → FS × Nat
  | [] => (fs, 0)
  | (current, original) :: rest =>
    if current ∈ fs.files then
      let r := restore_files { fs with files := original :: fs.files.erase current } rest
      (r.1, r.2 + 1)
    else
      restore_files fs rest

/-- One iteration of the created-folder cleanup: `rmdir` when the folder
exists and is empty. -/
def remove_folder_step (fs : FS) (dir : String) : FS :=
  if dir ∈ fs.dirs ∧ dir_empty fs dir = true then
    { fs with dirs := fs.dirs.erase dir }
  else fs

/-- The created-folder cleanup loop of `rollback`, in reverse creation order. -/
def remove_folders (fs : FS) (folders : List String) : FS :=
  folders.reverse.foldl remove_folder_step fs

/-- The result dict of `SnapshotManager.rollback`. -/
structure RollbackResult where
  success : Bool
  restored : Nat
  failed : Nat
  error : Option String
  deriving DecidableEq, Repr

/-- The snapshot store (`snapshots_dir` contents, keyed by snapshot id). -/
abbrev SnapshotStore := List (String × Snapshot)

/-- Embeds `SnapshotManager.load_snapshot`. -/
def load_snapshot (store : SnapshotStore) (snapshot_id : String) : Option Snapshot :=
  (store.find? (fun kv => kv.1 = snapshot_id)).map (·.2)

/-- Embeds `SnapshotManager.rollback`: not-found and expired guards, then the
restore loop and the empty-folder cleanup (`failed = 0` because the model
has no I/O faults). -/
def rollback (store : SnapshotStore) (snapshot_id : String) (now : Nat)
    (fs : FS) : RollbackResult × FS :=
  match load_snapshot store snapshot_id with
  | none =>
    ({ success := false, restored := 0, failed := 0,
       error := some "Snapshot not found" }, fs)
  | some snap =>
    if snap.is_expired now then
      ({ success := false, restored := 0, failed := 0,
         error := some "Snapshot expired (>24 hours)" }, fs)
    else
      let r := restore_files fs snap.file_states
      let fs2 := remove_folders r.1 snap.folders_created
      ({ success := true, restored := r.2, failed := 0, error := none }, fs2)

/-! ### Circuit breaker (`retry_handler.py`)

Wall-clock instants are naturals (seconds); the outcome of the wrapped
function is an input of `call`, and the `rejected` result is the
`CircuitBreakerOpenError` raised without invoking the wrapped function. -/

/-- The `CircuitState` enum (`OPEN` is spelled `opened` because `open` is
a Lean keyword). -/
inductive CircuitState where
  | closed
  | opened
  | halfOpen
  deriving DecidableEq, Repr

/-- The mutable fields of `CircuitBreaker` plus its configuration. -/
structure CircuitBreaker where
  failure_threshold : Nat
  recovery_timeout : Nat
  failure_count : Nat
  last_failure_time : Option Nat
  state : CircuitState
  deriving DecidableEq, Repr

/-- A freshly constructed breaker (`failure_count = 0`,
`last_failure_time = None`, `state = CLOSED`). -/
def CircuitBreaker.init (threshold timeout : Nat) : CircuitBreaker :=
  { failure_threshold := threshold, recovery_timeout := timeout,
    failure_count := 0, last_failure_time := none, state := CircuitState.closed }

/-- Outcome of the wrapped function when it is actually invoked. -/
inductive CallOutcome where
  | success
  | failure
  deriving DecidableEq, Repr

/-- Result of `CircuitBreaker.call`: either the wrapped function was
invoked (with its outcome re-raised or returned), or the call was
rejected with `CircuitBreakerOpenError` without any invocation. -/
inductive CallResult where
  | invoked (outcome : CallOutcome)
  | rejected
  deriving DecidableEq, Repr

/-- Embeds `CircuitBreaker._should_attempt_reset`. -/
def should_attempt_reset (cb : CircuitBreaker) (now : Nat) : Bool :=
  match cb.last_failure_time with
  | none => true
  | some t => cb.recovery_timeout ≤ now - t

/-- Embeds `CircuitBreaker._on_success`. -/
def on_success (cb : CircuitBreaker) : CircuitBreaker :=
  let cb := { cb with failure_count := 0 }
  if cb.state = CircuitState.halfOpen then { cb with state := CircuitState.closed }
  else cb

/-- Embeds `CircuitBreaker._on_failure`. -/
def on_failure (cb : CircuitBreaker) (now : Nat) : CircuitBreaker :=
  let cb := { cb with failure_count := cb.failure_count + 1,
                      last_failure_time := some now }
  if cb.failure_threshold ≤ cb.failure_count then
    { cb with state := CircuitState.opened }
  else cb

/-- Embeds `CircuitBreaker.call`. -/
def CircuitBreaker.call (cb : CircuitBreaker) (now : Nat) (outcome : CallOutcome) :
    CallResult × CircuitBreaker :=
  if cb.state = CircuitState.opened ∧ should_attempt_reset cb now = false then
    (CallResult.rejected, cb)
  else
    let cb1 := if cb.state = CircuitState.opened
               then { cb with state := CircuitState.halfOpen } else cb
    match outcome with
    | CallOutcome.success => (CallResult.invoked CallOutcome.success, on_success cb1)
    | CallOutcome.failure => (CallResult.invoked CallOutcome.failure, on_failure cb1 now)

/-- N consecutive calls whose wrapped function fails, all at instant `t`. -/
def call_failures (cb : CircuitBreaker) (t : Nat) : Nat → CircuitBreaker
  | 0 => cb
  | n + 1 => ((call_failures cb t n).call t CallOutcome.failure).2

/-! ### Safety checker (`safety.py`) -/

/-- Embeds `settings.MAX_FILES_PER_OPERATION` default. -/
def MAX_FILES_PER_OPERATION : Nat := 1000

/-- Embeds `policies.is_executable_file`. -/
def is_executable_file (p : PyPath) : Bool :=
  EXECUTABLE_EXTENSIONS.contains (pyLower (suffix_of (name_of p)))

/-- The per-path validation loop of `SafetyChecker.validate_operation`:
the first `validate_path` failure is re-raised as a `SafetyViolation`. -/
def validate_each (must_exist : Bool) (fs_exists parent_exists : PyPath → Bool) :
    List PyPath → Except String Unit
  | [] => Except.ok ()
  | p :: rest =>
    match validate_path p must_exist fs_exists parent_exists with
    | Except.error e => Except.error ("Path validation failed: " ++ e)
    | Except.ok _ => validate_each must_exist fs_exists parent_exists rest

/-- Embeds `SafetyChecker._validate_delete`: a non-empty directory among the
paths raises a `SafetyViolation`. -/
def validate_delete (is_dir has_entries : PyPath → Bool) :
    List PyPath → Except String Unit
  | [] => Except.ok ()
  | p :: rest =>
    if is_dir p && has_entries p then
      Except.error ("Cannot delete non-empty directory: " ++ pathStr p)
    else validate_delete is_dir has_entries rest

/-- Embeds `SafetyChecker._validate_execute`. -/
def validate_execute : List PyPath → Except String Unit
  | [] => Except.ok ()
  | p :: rest =>
    if !(is_executable_file p) then
      Except.error ("File is not executable: " ++ pathStr p)
    else validate_execute rest

/-- Embeds `SafetyChecker.validate_operation`: path-count limit, per-path
validation (`must_exist` unless the operation is `create`), then the
operation-specific checks; `Except.error` is a raised `SafetyViolation`. -/
def validate_operation (operation_type : String) (paths : List PyPath)
    (fs_exists parent_exists is_dir has_entries : PyPath → Bool) :
    Except String Unit :=
  if MAX_FILES_PER_OPERATION < paths.length then
    Except.error "Operation exceeds maximum file limit"
  else
    match validate_each (!(operation_type = "create")) fs_exists parent_exists paths with
    | Except.error e => Except.error e
    | Except.ok _ =>
      if operation_type = "delete" then validate_delete is_dir has_entries paths
      else if operation_type = "execute" then validate_execute paths
      else Except.ok ()

/-! ### Theorems -/

/-- Monotonicity of the file-count ladder. -/
theorem file_count_bonus_mono {a b : Nat} (h : a ≤ b) :
    file_count_bonus a ≤ file_count_bonus b := by
  unfold file_count_bonus RISK_HIGH_FILE_COUNT RISK_MEDIUM_FILE_COUNT RISK_LOW_FILE_COUNT
  split_ifs <;> omega

/-- Monotonicity of the total-size ladder. -/
theorem size_bonus_mono {a b : Nat} (h : a ≤ b) :
    size_bonus a ≤ size_bonus b := by
  unfold size_bonus RISK_HIGH_SIZE RISK_MEDIUM_SIZE RISK_LOW_SIZE
  split_ifs <;> omega

/-- C9: holding the operation and the other factors fixed, the risk score
reported by `assess_operation` is monotonically non-decreasing in the file
count, in the cumulative byte size, and when the recursive flag goes from
false to true. -/
theorem risk_score_monotone (op : String) (fc fc' ts ts' : Nat)
    (sens prot recur sys : Bool) (hfc : fc ≤ fc') (hts : ts ≤ ts') :
    (assess_operation op fc ts sens prot recur sys).score
      ≤ (assess_operation op fc' ts sens prot recur sys).score
    ∧ (assess_operation op fc ts sens prot recur sys).score
      ≤ (assess_operation op fc ts' sens prot recur sys).score
    ∧ (assess_operation op fc ts sens prot false sys).score
      ≤ (assess_operation op fc ts sens prot true sys).score := by
  refine ⟨?_, ?_, ?_⟩
  · simp only [assess_operation]
    apply min_le_min _ le_rfl
    unfold raw_score
    have h1 := file_count_bonus_mono hfc
    omega
  · simp only [assess_operation]
    apply min_le_min _ le_rfl
    unfold raw_score
    have h2 := size_bonus_mono hts
    omega
  · simp only [assess_operation]
    apply min_le_min _ le_rfl
    unfold raw_score
    simp only [if_pos, if_neg, Bool.false_eq_true, if_false, if_true]
    omega

/-- Closed instance for C9. -/
theorem risk_score_monotone_witness :
    (assess_operation "delete_files" 5 0 false false false false).score
      ≤ (assess_operation "delete_files" 300 0 false false false false).score :=
  (risk_score_monotone "delete_files" 5 300 0 0 false false false false
    (by decide) (by decide)).1

/-- The always-confirm and never-confirm operation sets are disjoint. -/
theorem never_always_disjoint (op : String) (h : op ∈ NEVER_CONFIRM_OPERATIONS) :
    op ∉ ALWAYS_CONFIRM_OPERATIONS := by
  fin_cases h <;> decide

/-- C8: for every operation type in the never-confirm (read-only) set and
all file counts, byte sizes and path flags, the risk assessment has
`requires_confirmation = false`. -/
theorem never_confirm_no_confirmation (op : String)
    (h : op ∈ NEVER_CONFIRM_OPERATIONS) (fc ts : Nat)
    (sens prot recur sys : Bool) :
    (assess_operation op fc ts sens prot recur sys).requires_confirmation = false := by
  have hA := never_always_disjoint op h
  simp [assess_operation, requires_confirmation_rule, hA, h]

/-- Closed instance for C8: a huge read-only scan still needs no confirmation. -/
theorem never_confirm_no_confirmation_witness :
    (assess_operation "scan_folder" 100000 (1024 * 1024 * 1024 * 1024)
      false false true false).requires_confirmation = false :=
  never_confirm_no_confirmation "scan_folder" (by decide)
    100000 (1024 * 1024 * 1024 * 1024) false false true false

/-- C4: rollback on an expired snapshot fails with the expired error and
leaves the filesystem untouched. -/
theorem rollback_expired (store : SnapshotStore) (snapshot_id : String)
    (now : Nat) (fs : FS) (snap : Snapshot)
    (h1 : load_snapshot store snapshot_id = some snap)
    (h2 : snap.is_expired now = true) :
    rollback store snapshot_id now fs =
      ({ success := false, restored := 0, failed := 0,
         error := some "Snapshot expired (>24 hours)" }, fs) := by
  simp [rollback, h1, h2]

/-- A snapshot created at epoch second 0 for the C4 witness. -/
def snapExpiredW : Snapshot :=
  { snapshot_id := "s0", operation_type := "move_files",
    file_states := [("/home/user/Documents/new/a.txt", "/home/user/Documents/a.txt")],
    folders_created := ["/home/user/Documents/new"], created_at := 0 }

/-- Closed instance for C4: a 25-hour-old snapshot refuses rollback and
moves nothing. -/
theorem rollback_expired_witness :
    rollback [("s0", snapExpiredW)] "s0" (25 * 3600)
        { files := ["/home/user/Documents/new/a.txt"], dirs := ["/home/user/Documents/new"] } =
      ({ success := false, restored := 0, failed := 0,
         error := some "Snapshot expired (>24 hours)" },
       { files := ["/home/user/Documents/new/a.txt"], dirs := ["/home/user/Documents/new"] }) :=
  rollback_expired _ _ _ _ snapExpiredW rfl (by decide)

/-- The assessment of the C6 scenario: delete request over 250 files
totaling 600MB with no sensitive/protected/system path and no recursion. -/
def c6_assessment : RiskAssessment :=
  assess_operation "delete_files" 250 (600 * 1024 * 1024) false false false false

/-- C6 counterexample: the 250-file / 600MB delete scores past the Critical
threshold (raw 50+40+30 = 120), so its level is Critical, not High, and a
bare "confirm" response is NOT accepted for it. -/
theorem c6_scenario_counterexample :
    c6_assessment.level = RiskLevel.critical
    ∧ classify_response c6_assessment.level "confirm" = false
    ∧ pyIn "cancel" (pyNormalize "confirm") = false := by
  decide

/-- C6 amended: the 250-file / 600MB delete scores ≥ 60 (in fact clamped to
100, level Critical), requires confirmation and backup, and its
confirmation is granted exactly by a response containing the exact phrase
"yes i confirm". -/
theorem c6_scenario_amended (resp : String) :
    60 ≤ c6_assessment.score
    ∧ c6_assessment.score = 100
    ∧ c6_assessment.level = RiskLevel.critical
    ∧ c6_assessment.requires_confirmation = true
    ∧ c6_assessment.requires_backup = true
    ∧ classify_response c6_assessment.level resp
        = pyIn "yes i confirm" (pyNormalize resp) := by
  refine ⟨by decide, by decide, by decide, by decide, by decide, ?_⟩
  have hl : c6_assessment.level = RiskLevel.critical := by decide
  rw [hl]
  simp [classify_response]

/-- A pending critical-risk request used by concrete instances. -/
def reqCritW : ConfirmationRequest :=
  { operation_id := "op1", operation_type := "delete_files",
    paths := ["/home/user/Documents/a.txt"],
    risk_assessment :=
      { level := RiskLevel.critical, score := 100,
        requires_confirmation := true, requires_backup := true },
    user_id := "u1", timestamp := "2025-01-01T00:00:00", details := [],
    backup_id := none }

/-- C1 counterexample: for a Critical-risk pending request, the response
"yes i confirm cancel" contains the negative keyword "cancel" yet
`confirm_operation` returns `confirmed = true`, so a negative keyword does
NOT override a positive match at every risk level. -/
theorem confirm_negative_override_fails :
    (confirm_operation [("op1", reqCritW)] "op1" "yes i confirm cancel").1.1 = true
    ∧ pyIn "cancel" (pyNormalize "yes i confirm cancel") = true := by
  decide

/-- C1 amended: `confirm_operation` classifies the response of a pending
request by its risk level — the exact phrase "yes i confirm" for Critical
(where negative keywords never override), the keyword "confirm" overridden
only by "cancel" for High, and "yes"/"confirm" overridden by "no" or
"cancel" for Medium/Low/Safe. -/
theorem confirm_operation_classifies (tbl : PendingTable)
    (operation_id user_response : String) (req : ConfirmationRequest)
    (h : lookupReq tbl operation_id = some req) :
    (confirm_operation tbl operation_id user_response).1.1
      = classify_response req.risk_assessment.level user_response
    ∧ (req.risk_assessment.level = RiskLevel.critical →
        (confirm_operation tbl operation_id user_response).1.1
          = pyIn "yes i confirm" (pyNormalize user_response))
    ∧ (req.risk_assessment.level = RiskLevel.high →
        (confirm_operation tbl operation_id user_response).1.1
          = (pyIn "confirm" (pyNormalize user_response)
             && !(pyIn "cancel" (pyNormalize user_response))))
    ∧ (req.risk_assessment.level ≠ RiskLevel.critical →
       req.risk_assessment.level ≠ RiskLevel.high →
        (confirm_operation tbl operation_id user_response).1.1
          = ((pyIn "yes" (pyNormalize user_response)
              || pyIn "confirm" (pyNormalize user_response))
             && !(pyIn "no" (pyNormalize user_response))
             && !(pyIn "cancel" (pyNormalize user_response)))) := by
  have hmain : (confirm_operation tbl operation_id user_response).1.1
      = classify_response req.risk_assessment.level user_response := by
    simp [confirm_operation, h]
  refine ⟨hmain, ?_, ?_, ?_⟩
  · intro hl
    rw [hmain, classify_response, hl]
    simp
  · intro hl
    rw [hmain, classify_response, hl]
    simp
  · intro hl1 hl2
    rw [hmain, classify_response]
    rw [if_neg (by simpa using hl1), if_neg (by simpa using hl2)]

/-- Closed instance for C1: the Critical rule applied to a concrete table. -/
theorem confirm_operation_classifies_witness :
    (confirm_operation [("op1", reqCritW)] "op1" "YES I CONFIRM").1.1
      = pyIn "yes i confirm" (pyNormalize "YES I CONFIRM") :=
  (confirm_operation_classifies [("op1", reqCritW)] "op1" "YES I CONFIRM"
    reqCritW rfl).2.1 rfl

/-- C3 counterexample: `/opt/data.txt` resolves under none of the
configured allowed roots (neither the `policies.py` defaults nor the
`security_config` base paths, here with home `/home/user`), yet
`path_utils.validate_path` accepts it: the cited validator never checks
allowed roots. -/
theorem validate_path_ignores_allowed_roots :
    validate_path ["opt", "data.txt"] false (fun _ => false) (fun _ => false)
      = Except.ok ["opt", "data.txt"]
    ∧ (DEFAULT_ALLOWED_FOLDERS ["home", "user"]).all
        (fun root => !(is_under root ["opt", "data.txt"])) = true
    ∧ (ALLOWED_BASE_PATHS ["home", "user"]).all
        (fun root => !(is_under root ["opt", "data.txt"])) = true :=
  ⟨rfl, by decide, by decide⟩

/-- C3 amended: the allowed-roots rejection lives in
`security.PathValidator.validate_path`, which rejects every resolved path
outside all allowed roots and every path under a forbidden root (even one
nested under an allowed root); the cited `path_utils.validate_path`
enforces only the forbidden-prefix rule. -/
theorem path_validation_rejects (allowed forbidden : List PyPath)
    (patterns forbidden_ext : List String) (p : PyPath) (operation : String)
    (is_file must_exist : Bool) (fs_exists parent_exists : PyPath → Bool) :
    (pv_under_allowed allowed p = false →
      ∃ e, pv_validate_path allowed forbidden patterns forbidden_ext p operation is_file
        = Except.error e)
    ∧ (pv_forbidden forbidden p = true →
      ∃ e, pv_validate_path allowed forbidden patterns forbidden_ext p operation is_file
        = Except.error e)
    ∧ (FORBIDDEN_PATHS.any (fun f => strStarts (pathStr p) f) = true →
      ∃ e, validate_path p must_exist fs_exists parent_exists = Except.error e) := by
  refine ⟨?_, ?_, ?_⟩
  · intro h
    exact ⟨_, by rw [pv_validate_path, if_pos (by simp [h])]⟩
  · intro h
    by_cases ha : pv_under_allowed allowed p = true
    · exact ⟨_, by rw [pv_validate_path, if_neg (by simp [ha]), if_pos h]⟩
    · exact ⟨_, by rw [pv_validate_path, if_pos (by simpa using ha)]⟩
  · intro h
    have hsafe : is_path_safe p = false := by
      rw [is_path_safe, if_pos h]
    exact ⟨_, by rw [validate_path, if_pos hsafe]⟩

/-- Closed instance for C3 amended: `/home/user/.ssh/id_ed25519` sits under
the allowed root `/home/user` yet under the forbidden root
`/home/user/.ssh`, and the PathValidator rejects it; `/etc/passwd` is
rejected by the forbidden-prefix rule of `path_utils.validate_path`. -/
theorem path_validation_rejects_witness :
    (∃ e, pv_validate_path [["home", "user"]] [["home", "user", ".ssh"]] [] []
        ["home", "user", ".ssh", "id_ed25519"] "access" false = Except.error e)
    ∧ (∃ e, validate_path ["etc", "passwd"] false (fun _ => false) (fun _ => false)
        = Except.error e) :=
  ⟨(path_validation_rejects [["home", "user"]] [["home", "user", ".ssh"]] [] []
      ["home", "user", ".ssh", "id_ed25519"] "access" false false
      (fun _ => false) (fun _ => false)).2.1 (by decide),
   (path_validation_rejects [] [] [] [] ["etc", "passwd"] "access" false false
      (fun _ => false) (fun _ => false)).2.2 (by decide)⟩

/-- A non-empty directory among the paths makes `_validate_delete` raise. -/
theorem validate_delete_error (is_dir has_entries : PyPath → Bool)
    (paths : List PyPath)
    (h : ∃ p ∈ paths, is_dir p = true ∧ has_entries p = true) :
    ∃ e, validate_delete is_dir has_entries paths = Except.error e := by
  induction paths with
  | nil => simp at h
  | cons q rest ih =>
    rw [validate_delete]
    by_cases hq : is_dir q && has_entries q
    · rw [if_pos hq]
      exact ⟨_, rfl⟩
    · rw [if_neg hq]
      rcases h with ⟨p, hp, h1, h2⟩
      rcases List.mem_cons.mp hp with rfl | hp'
      · exact absurd (by rw [h1, h2]; rfl) hq
      · exact ih ⟨p, hp', h1, h2⟩

/-- C10: a delete operation whose paths include a directory with at least
one entry never passes `SafetyChecker.validate_operation`: it raises a
`SafetyViolation`. -/
theorem delete_nonempty_dir_refused (paths : List PyPath)
    (fs_exists parent_exists is_dir has_entries : PyPath → Bool)
    (h : ∃ p ∈ paths, is_dir p = true ∧ has_entries p = true) :
    ∃ e, validate_operation "delete" paths fs_exists parent_exists is_dir has_entries
      = Except.error e := by
  rw [validate_operation]
  by_cases hc : MAX_FILES_PER_OPERATION < paths.length
  · rw [if_pos hc]
    exact ⟨_, rfl⟩
  · rw [if_neg hc]
    rcases hv : validate_each (!("delete" = "create" : Bool))
        fs_exists parent_exists paths with e | u
    · exact ⟨_, rfl⟩
    · simp only [if_true]
      exact validate_delete_error is_dir has_entries paths h

/-- Closed instance for C10: deleting a non-empty directory under
Documents is refused. -/
theorem delete_nonempty_dir_refused_witness :
    ∃ e, validate_operation "delete" [["home", "user", "Documents", "d"]]
      (fun _ => true) (fun _ => true) (fun _ => true) (fun _ => true)
      = Except.error e :=
  delete_nonempty_dir_refused [["home", "user", "Documents", "d"]]
    (fun _ => true) (fun _ => true) (fun _ => true) (fun _ => true)
    ⟨["home", "user", "Documents", "d"], by simp, rfl, rfl⟩

/-- Lookup in a table with a head entry. -/
theorem lookupReq_cons (kv : String × ConfirmationRequest) (rest : PendingTable)
    (j : String) :
    lookupReq (kv :: rest) j = if kv.1 = j then some kv.2 else lookupReq rest j := by
  by_cases h : kv.1 = j <;> simp [lookupReq, List.find?_cons, h]

/-- Deletion in a table with a head entry. -/
theorem eraseReq_cons (kv : String × ConfirmationRequest) (rest : PendingTable)
    (i : String) :
    eraseReq (kv :: rest) i
      = if kv.1 = i then eraseReq rest i else kv :: eraseReq rest i := by
  by_cases h : kv.1 = i <;> simp [eraseReq, List.filter_cons, h]

/-- After deleting a key, looking it up finds nothing. -/
theorem lookupReq_eraseReq_self (tbl : PendingTable) (i : String) :
    lookupReq (eraseReq tbl i) i = none := by
  induction tbl with
  | nil => rfl
  | cons kv rest ih =>
    rw [eraseReq_cons]
    by_cases hk : kv.1 = i
    · rw [if_pos hk]; exact ih
    · rw [if_neg hk, lookupReq_cons, if_neg hk]; exact ih

/-- Deleting one key leaves lookups of other keys unchanged. -/
theorem lookupReq_eraseReq_ne (tbl : PendingTable) (i j : String) (h : ¬ j = i) :
    lookupReq (eraseReq tbl i) j = lookupReq tbl j := by
  induction tbl with
  | nil => rfl
  | cons kv rest ih =>
    rw [eraseReq_cons]
    by_cases hk : kv.1 = i
    · have hkj : ¬ kv.1 = j := by rw [hk]; exact fun he => h he.symm
      rw [if_pos hk, lookupReq_cons, if_neg hkj]
      exact ih
    · rw [if_neg hk, lookupReq_cons, lookupReq_cons]
      by_cases hkj : kv.1 = j
      · rw [if_pos hkj, if_pos hkj]
      · rw [if_neg hkj, if_neg hkj]
        exact ih

/-- Whether a key is pending, as a 0/1 count. -/
def presentCount (tbl : PendingTable) (i : String) : Nat :=
  if (lookupReq tbl i).isSome then 1 else 0

/-- Any single confirmation-manager step writes at most one terminal audit
record for a given id, and only by removing that id from the pending table. -/
theorem cmStep_bound (tbl : PendingTable) (e : CMEvent) (i : String) :
    termCount i (cmStep tbl e).2 + presentCount (cmStep tbl e).1 i
      ≤ presentCount tbl i + submitCount i [e] := by
  cases e with
  | submit j req =>
    by_cases hj : j = i
    · subst hj
      have hl : lookupReq (insertReq tbl j req) j = some req := by
        unfold insertReq
        rw [lookupReq_cons, if_pos rfl]
      have hp : presentCount (insertReq tbl j req) j = 1 := by
        unfold presentCount
        rw [hl]
        rfl
      simp [cmStep, termCount, submitCount, hp]
    · have hne : ¬ i = j := fun he => hj he.symm
      have hl : lookupReq (insertReq tbl j req) i = lookupReq tbl i := by
        unfold insertReq
        rw [lookupReq_cons, if_neg hj]
        exact lookupReq_eraseReq_ne tbl j i hne
      have hp : presentCount (insertReq tbl j req) i = presentCount tbl i := by
        unfold presentCount
        rw [hl]
      simp [cmStep, termCount, submitCount, hp, hj]
  | confirm j resp =>
    rcases hl : lookupReq tbl j with _ | req
    · simp [cmStep, confirm_operation, hl, termCount, submitCount]
    · by_cases hj : j = i
      · subst hj
        simp [cmStep, confirm_operation, hl, termCount, submitCount,
          presentCount, lookupReq_eraseReq_self]
      · have hne : ¬ i = j := fun he => hj he.symm
        simp [cmStep, confirm_operation, hl, termCount, submitCount,
          presentCount, lookupReq_eraseReq_ne tbl j i hne, hj]
  | cancel j =>
    rcases hl : lookupReq tbl j with _ | req
    · simp [cmStep, cancel_operation, hl, termCount, submitCount]
    · by_cases hj : j = i
      · subst hj
        simp [cmStep, cancel_operation, hl, termCount, submitCount,
          presentCount, lookupReq_eraseReq_self]
      · have hne : ¬ i = j := fun he => hj he.symm
        simp [cmStep, cancel_operation, hl, termCount, submitCount,
          presentCount, lookupReq_eraseReq_ne tbl j i hne, hj]
  | timeout j =>
    rcases hl : lookupReq tbl j with _ | req
    · simp [cmStep, timeout_fire, hl, termCount, submitCount]
    · by_cases hj : j = i
      · subst hj
        simp [cmStep, timeout_fire, hl, termCount, submitCount,
          presentCount, lookupReq_eraseReq_self]
      · have hne : ¬ i = j := fun he => hj he.symm
        simp [cmStep, timeout_fire, hl, termCount, submitCount,
          presentCount, lookupReq_eraseReq_ne tbl j i hne, hj]

/-- Invariant of an interleaved run: terminal audit records written for an
id plus its remaining pendency never exceed its initial pendency plus the
number of times it was stored. -/
theorem cmRun_bound (i : String) (events : List CMEvent) :
    ∀ tbl : PendingTable,
      termCount i (cmRun tbl events).2 + presentCount (cmRun tbl events).1 i
        ≤ presentCount tbl i + submitCount i events := by
  induction events with
  | nil => intro tbl; simp [cmRun, termCount]
  | cons e es ih =>
    intro tbl
    have hstep := cmStep_bound tbl e i
    have hrec := ih (cmStep tbl e).1
    have hsplit : submitCount i (e :: es) = submitCount i [e] + submitCount i es := by
      cases e <;> simp [submitCount]
    rw [hsplit]
    have hrun : cmRun tbl (e :: es)
        = ((cmRun (cmStep tbl e).1 es).1,
           (cmStep tbl e).2 ++ (cmRun (cmStep tbl e).1 es).2) := by
      simp [cmRun]
    rw [hrun]
    simp only [termCount, List.countP_append] at *
    omega

/-- C2: for an operation id stored at most once, any interleaving of
confirm / cancel / timeout steps records at most one terminal audit entry
for it, and a resolver that finds the id already gone reports "not found"
with no audit write and no table change. -/
theorem terminal_resolution_unique (i : String) (events : List CMEvent)
    (h : submitCount i events ≤ 1) :
    termCount i (cmRun [] events).2 ≤ 1
    ∧ (∀ (tbl : PendingTable) (resp : String), lookupReq tbl i = none →
        confirm_operation tbl i resp = ((false, none), tbl, [])
        ∧ cancel_operation tbl i = (false, tbl, [])
        ∧ timeout_fire tbl i = (tbl, [])) := by
  constructor
  · have hb := cmRun_bound i events []
    have h0 : presentCount ([] : PendingTable) i = 0 := rfl
    omega
  · intro tbl resp hnone
    exact ⟨by simp [confirm_operation, hnone],
           by simp [cancel_operation, hnone],
           by simp [timeout_fire, hnone]⟩

/-- The event trace for the C2 witness: one submission, a successful
confirm, then the stale timeout firing. -/
def eventsW : List CMEvent :=
  [CMEvent.submit "op1" reqCritW,
   CMEvent.confirm "op1" "yes i confirm",
   CMEvent.timeout "op1"]

/-- Closed instance for C2: the confirm wins, the stale timeout loses and
writes nothing, so exactly one terminal record exists. -/
theorem terminal_resolution_unique_witness :
    termCount "op1" (cmRun [] eventsW).2 ≤ 1
    ∧ timeout_fire [] "op1" = ([], []) :=
  ⟨(terminal_resolution_unique "op1" eventsW (by decide)).1,
   ((terminal_resolution_unique "op1" eventsW (by decide)).2 [] "x" rfl).2.2⟩

/-- An open breaker whose recovery window has not elapsed rejects without
invoking the wrapped function and without changing state. -/
theorem call_rejected (cb : CircuitBreaker) (now : Nat) (o : CallOutcome)
    (h1 : cb.state = CircuitState.opened)
    (h2 : should_attempt_reset cb now = false) :
    cb.call now o = (CallResult.rejected, cb) := by
  unfold CircuitBreaker.call
  rw [if_pos ⟨h1, h2⟩]

/-- A successful probe call on an open breaker past its window closes it. -/
theorem call_probe_success (cb : CircuitBreaker) (now : Nat)
    (h1 : cb.state = CircuitState.opened)
    (h2 : should_attempt_reset cb now = true) :
    cb.call now CallOutcome.success
      = (CallResult.invoked CallOutcome.success,
         { cb with failure_count := 0, state := CircuitState.closed }) := by
  unfold CircuitBreaker.call
  rw [if_neg (by simp [h2])]
  rw [if_pos h1]
  simp [on_success]

/-- A failed probe call on an open breaker past its window reopens it with
a fresh failure time. -/
theorem call_probe_failure (cb : CircuitBreaker) (now : Nat)
    (h1 : cb.state = CircuitState.opened)
    (h2 : should_attempt_reset cb now = true)
    (h3 : cb.failure_threshold ≤ cb.failure_count + 1) :
    cb.call now CallOutcome.failure
      = (CallResult.invoked CallOutcome.failure,
         { cb with failure_count := cb.failure_count + 1,
                   last_failure_time := some now,
                   state := CircuitState.opened }) := by
  unfold CircuitBreaker.call
  rw [if_neg (by simp [h2])]
  rw [if_pos h1]
  simp [on_failure, h3]

/-- Running `k ≤ n` consecutive wrapped-function failures from a fresh
breaker with threshold `n` gives count `k`, failure time `t`, and opens
the breaker exactly when `k` reaches `n`. -/
theorem call_failures_spec (n r t : Nat) (hn : 1 ≤ n) :
    ∀ k, k ≤ n →
      call_failures (CircuitBreaker.init n r) t k =
        { failure_threshold := n, recovery_timeout := r, failure_count := k,
          last_failure_time := if k = 0 then none else some t,
          state := if k < n then CircuitState.closed else CircuitState.opened } := by
  intro k
  induction k with
  | zero =>
    intro _
    have h0n : 0 < n := hn
    simp [call_failures, CircuitBreaker.init, h0n]
  | succ k ih =>
    intro hk
    have hkn : k < n := hk
    rw [call_failures, ih (Nat.le_of_lt hkn)]
    have hstate : (if k < n then CircuitState.closed else CircuitState.opened)
        = CircuitState.closed := if_pos hkn
    unfold CircuitBreaker.call
    rw [hstate]
    rw [if_neg (by simp)]
    rw [if_neg (by simp)]
    unfold on_failure
    have hlast : ¬ (k + 1 = 0) := Nat.succ_ne_zero k
    by_cases h2 : n ≤ k + 1
    · simp only [if_pos h2]
      simp [if_neg hlast, if_neg (show ¬ k + 1 < n by omega)]
    · simp only [if_neg h2]
      simp [if_neg hlast, if_pos (show k + 1 < n by omega)]

/-- C7: after `n` consecutive failures (`n` = threshold) the breaker is
open: while the recovery window has not elapsed every call is rejected
without invoking the wrapped function; once it has elapsed the probe call
is invoked — success closes the breaker, failure reopens it with a fresh
window during which calls are again rejected. -/
theorem circuit_breaker_behaviour (n r t : Nat) (hn : 1 ≤ n) :
    (call_failures (CircuitBreaker.init n r) t n).state = CircuitState.opened
    ∧ (call_failures (CircuitBreaker.init n r) t n).failure_count = n
    ∧ (∀ t' o, t' - t < r →
        (call_failures (CircuitBreaker.init n r) t n).call t' o
          = (CallResult.rejected, call_failures (CircuitBreaker.init n r) t n))
    ∧ (∀ t', r ≤ t' - t →
        ((call_failures (CircuitBreaker.init n r) t n).call t' CallOutcome.success).1
            = CallResult.invoked CallOutcome.success
        ∧ ((call_failures (CircuitBreaker.init n r) t n).call t' CallOutcome.success).2.state
            = CircuitState.closed
        ∧ ((call_failures (CircuitBreaker.init n r) t n).call t' CallOutcome.success).2.failure_count
            = 0
        ∧ ((call_failures (CircuitBreaker.init n r) t n).call t' CallOutcome.failure).1
            = CallResult.invoked CallOutcome.failure
        ∧ ((call_failures (CircuitBreaker.init n r) t n).call t' CallOutcome.failure).2.state
            = CircuitState.opened
        ∧ (∀ t'' o, t'' - t' < r →
            ((call_failures (CircuitBreaker.init n r) t n).call t' CallOutcome.failure).2.call t'' o
              = (CallResult.rejected,
                 ((call_failures (CircuitBreaker.init n r) t n).call t' CallOutcome.failure).2))) := by
  have hcb := call_failures_spec n r t hn n le_rfl
  have hn0 : ¬ (n = 0) := by omega
  have hnn : ¬ (n < n) := Nat.lt_irrefl n
  rw [hcb, if_neg hn0, if_neg hnn]
  refine ⟨rfl, rfl, ?_, ?_⟩
  · intro t' o ht
    exact call_rejected _ t' o rfl (by simp [should_attempt_reset]; omega)
  · intro t' ht
    have hreset : should_attempt_reset
        { failure_threshold := n, recovery_timeout := r, failure_count := n,
          last_failure_time := some t, state := CircuitState.opened } t' = true := by
      simp [should_attempt_reset]
      omega
    rw [call_probe_success _ t' rfl hreset, call_probe_failure _ t' rfl hreset (by simp)]
    refine ⟨rfl, rfl, rfl, rfl, rfl, ?_⟩
    intro t'' o ht''
    exact call_rejected _ t'' o rfl (by simp [should_attempt_reset]; omega)

/-- Closed instance for C7: with threshold 5 and window 60s, the call at
second 30 after 5 failures at second 0 is rejected with no invocation. -/
theorem circuit_breaker_behaviour_witness :
    (call_failures (CircuitBreaker.init 5 60) 0 5).call 30 CallOutcome.failure
      = (CallResult.rejected, call_failures (CircuitBreaker.init 5 60) 0 5) :=
  (circuit_breaker_behaviour 5 60 0 (by decide)).2.2.1 30 CallOutcome.failure (by decide)

/-- The restore loop never touches directories. -/
theorem restore_files_dirs (l : List (String × String)) :
    ∀ fs : FS, (restore_files fs l).1.dirs = fs.dirs := by
  induction l with
  | nil => intro fs; rfl
  | cons q rest ih =>
    intro fs
    obtain ⟨c, o⟩ := q
    rw [restore_files]
    by_cases hc : c ∈ fs.files
    · rw [if_pos hc]
      exact ih _
    · rw [if_neg hc]
      exact ih fs

/-- A file that is the source of no pair survives the restore loop. -/
theorem restore_files_mem_mono (l : List (String × String)) :
    ∀ (fs : FS) (x : String), x ∈ fs.files →
      (∀ q ∈ l, ¬ x = q.1) → x ∈ (restore_files fs l).1.files := by
  induction l with
  | nil => intro fs x hx _; exact hx
  | cons q rest ih =>
    intro fs x hx hne
    obtain ⟨c, o⟩ := q
    rw [restore_files]
    by_cases hc : c ∈ fs.files
    · rw [if_pos hc]
      apply ih
      · have hxc : x ≠ c := hne (c, o) (List.mem_cons_self _ _)
        exact List.mem_cons_of_mem o ((List.mem_erase_of_ne hxc).mpr hx)
      · exact fun q hq => hne q (List.mem_cons_of_mem _ hq)
    · rw [if_neg hc]
      exact ih fs x hx (fun q hq => hne q (List.mem_cons_of_mem _ hq))

/-- Files that are neither a source nor a destination of any pair are
untouched by the restore loop. -/
theorem restore_files_frame (l : List (String × String)) :
    ∀ (fs : FS) (x : String), (∀ q ∈ l, ¬ x = q.1) → (∀ q ∈ l, ¬ x = q.2) →
      (x ∈ (restore_files fs l).1.files ↔ x ∈ fs.files) := by
  induction l with
  | nil => intro fs x _ _; exact Iff.rfl
  | cons q rest ih =>
    intro fs x h1 h2
    obtain ⟨c, o⟩ := q
    have hxc : x ≠ c := h1 (c, o) (List.mem_cons_self _ _)
    have hxo : x ≠ o := h2 (c, o) (List.mem_cons_self _ _)
    have h1' : ∀ q ∈ rest, ¬ x = q.1 := fun q hq => h1 q (List.mem_cons_of_mem _ hq)
    have h2' : ∀ q ∈ rest, ¬ x = q.2 := fun q hq => h2 q (List.mem_cons_of_mem _ hq)
    rw [restore_files]
    by_cases hc : c ∈ fs.files
    · rw [if_pos hc]
      rw [ih _ x h1' h2']
      constructor
      · intro hmem
        rcases List.mem_cons.mp hmem with he | hmem'
        · exact absurd he hxo
        · exact (List.mem_erase_of_ne hxc).mp hmem'
      · intro hmem
        exact List.mem_cons_of_mem o ((List.mem_erase_of_ne hxc).mpr hmem)
    · rw [if_neg hc]
      exact ih fs x h1' h2'

/-- When the sources are distinct, all exist, and no destination collides
with a source, the restore loop makes every destination exist. -/
theorem restore_files_restores (l : List (String × String)) :
    ∀ fs : FS, (l.map Prod.fst).Nodup →
      (∀ q ∈ l, q.1 ∈ fs.files) →
      (∀ q ∈ l, ∀ q' ∈ l, ¬ q.2 = q'.1) →
      ∀ q ∈ l, q.2 ∈ (restore_files fs l).1.files := by
  induction l with
  | nil => intro fs _ _ _ q hq; simp at hq
  | cons hd rest ih =>
    intro fs hnodup hcur hdisj q hq
    obtain ⟨c, o⟩ := hd
    have hc : c ∈ fs.files := hcur (c, o) (List.mem_cons_self _ _)
    have hnodup' : (rest.map Prod.fst).Nodup := by
      simpa using hnodup.of_cons
    have hcnotin : c ∉ rest.map Prod.fst := by
      have := hnodup
      simp only [List.map_cons, List.nodup_cons] at this
      exact this.1
    rw [restore_files, if_pos hc]
    rcases List.mem_cons.mp hq with he | hq'
    · subst he
      apply restore_files_mem_mono
      · exact List.mem_cons_self _ _
      · intro q' hq'
        exact hdisj (c, o) (List.mem_cons_self _ _) q' (List.mem_cons_of_mem _ hq')
    · apply ih _ hnodup'
      · intro q' hq'mem
        have hq'c : q'.1 ≠ c := by
          intro he
          exact hcnotin (he ▸ List.mem_map_of_mem Prod.fst hq'mem)
        have hq'o : ¬ (q'.1 = o) := by
          intro he
          exact hdisj (c, o) (List.mem_cons_self _ _) q'
            (List.mem_cons_of_mem _ hq'mem) he.symm
        have : q'.1 ∈ fs.files := hcur q' (List.mem_cons_of_mem _ hq'mem)
        exact List.mem_cons_of_mem o ((List.mem_erase_of_ne hq'c).mpr this)
      · intro q1 hq1 q2 hq2
        exact hdisj q1 (List.mem_cons_of_mem _ hq1) q2 (List.mem_cons_of_mem _ hq2)
      · exact hq'

/-- The created-folder cleanup never touches files. -/
theorem remove_folder_fold_files (l : List String) :
    ∀ fs : FS, (l.foldl remove_folder_step fs).files = fs.files := by
  induction l with
  | nil => intro fs; rfl
  | cons d rest ih =>
    intro fs
    rw [List.foldl_cons, ih]
    unfold remove_folder_step
    by_cases h : d ∈ fs.dirs ∧ dir_empty fs d = true
    · rw [if_pos h]
    · rw [if_neg h]

/-- Directories not in the cleanup list are untouched by the cleanup. -/
theorem remove_folder_fold_dirs (l : List String) :
    ∀ (fs : FS) (x : String), x ∉ l →
      (x ∈ (l.foldl remove_folder_step fs).dirs ↔ x ∈ fs.dirs) := by
  induction l with
  | nil => intro fs x _; exact Iff.rfl
  | cons d rest ih =>
    intro fs x hx
    have hxd : x ≠ d := fun he => hx (he ▸ List.mem_cons_self _ _)
    have hxrest : x ∉ rest := fun hm => hx (List.mem_cons_of_mem _ hm)
    rw [List.foldl_cons, ih _ x hxrest]
    unfold remove_folder_step
    by_cases h : d ∈ fs.dirs ∧ dir_empty fs d = true
    · rw [if_pos h]
      exact List.mem_erase_of_ne hxd
    · rw [if_neg h]

/-- A snapshot that only records a freshly created folder. -/
def snapFolderW : Snapshot :=
  { snapshot_id := "s2", operation_type := "organize_folder",
    file_states := [], folders_created := ["/home/user/Documents/new"],
    created_at := 0 }

/-- C5 counterexample: rolling back a non-expired snapshot whose
`fileStateMap` is empty removes the recorded created folder
`/home/user/Documents/new` — a filesystem path outside the map is
touched. -/
theorem rollback_touches_created_folders :
    snapFolderW.file_states = []
    ∧ "/home/user/Documents/new"
        ∈ (FS.mk [] ["/home/user/Documents/new"]).dirs
    ∧ (rollback [("s2", snapFolderW)] "s2" 100
        (FS.mk [] ["/home/user/Documents/new"])).2.dirs = [] := by
  refine ⟨rfl, by decide, rfl⟩

/-- C5 amended: for a non-expired snapshot whose recorded current paths
are distinct, all exist, and never coincide with a recorded original,
rollback restores every original of the `fileStateMap` to existence; the
only files touched are those currents and originals, and the only
directories touched are the recorded created folders (removed when
empty). -/
theorem rollback_restores (store : SnapshotStore) (snapshot_id : String)
    (now : Nat) (fs : FS) (snap : Snapshot)
    (h1 : load_snapshot store snapshot_id = some snap)
    (h2 : snap.is_expired now = false)
    (hnodup : (snap.file_states.map Prod.fst).Nodup)
    (hcur : ∀ q ∈ snap.file_states, q.1 ∈ fs.files)
    (hdisj : ∀ q ∈ snap.file_states, ∀ q' ∈ snap.file_states, ¬ q.2 = q'.1) :
    (∀ q ∈ snap.file_states, q.2 ∈ (rollback store snapshot_id now fs).2.files)
    ∧ (∀ x : String, (∀ q ∈ snap.file_states, ¬ x = q.1) →
        (∀ q ∈ snap.file_states, ¬ x = q.2) →
        (x ∈ (rollback store snapshot_id now fs).2.files ↔ x ∈ fs.files))
    ∧ (∀ x : String, x ∉ snap.folders_created →
        (x ∈ (rollback store snapshot_id now fs).2.dirs ↔ x ∈ fs.dirs)) := by
  have hroll : (rollback store snapshot_id now fs).2
      = remove_folders (restore_files fs snap.file_states).1 snap.folders_created := by
    rw [rollback, h1]
    simp [h2]
  rw [hroll]
  refine ⟨?_, ?_, ?_⟩
  · intro q hq
    rw [remove_folders, remove_folder_fold_files]
    exact restore_files_restores snap.file_states fs hnodup hcur hdisj q hq
  · intro x hx1 hx2
    rw [remove_folders, remove_folder_fold_files]
    exact restore_files_frame snap.file_states fs x hx1 hx2
  · intro x hx
    have hx' : x ∉ snap.folders_created.reverse := by
      simpa using hx
    rw [remove_folders,
      remove_folder_fold_dirs snap.folders_created.reverse _ x hx',
      restore_files_dirs]

/-- A one-file snapshot for the C5 witness. -/
def snapMoveW : Snapshot :=
  { snapshot_id := "s1", operation_type := "move_files",
    file_states := [("/home/user/Documents/new/a.txt", "/home/user/Documents/a.txt")],
    folders_created := [], created_at := 0 }

/-- Closed instance for C5 amended: the moved file is restored to its
original location and an unrelated file is untouched. -/
theorem rollback_restores_witness :
    "/home/user/Documents/a.txt"
      ∈ (rollback [("s1", snapMoveW)] "s1" 100
          (FS.mk ["/home/user/Documents/new/a.txt", "/home/user/b.txt"] [])).2.files
    ∧ ("/home/user/b.txt"
        ∈ (rollback [("s1", snapMoveW)] "s1" 100
            (FS.mk ["/home/user/Documents/new/a.txt", "/home/user/b.txt"] [])).2.files
       ↔ "/home/user/b.txt"
          ∈ (FS.mk ["/home/user/Documents/new/a.txt", "/home/user/b.txt"] []).files) :=
  ⟨(rollback_restores [("s1", snapMoveW)] "s1" 100
      (FS.mk ["/home/user/Documents/new/a.txt", "/home/user/b.txt"] []) snapMoveW
      rfl (by decide) (by decide) (by decide) (by decide)).1
      ("/home/user/Documents/new/a.txt", "/home/user/Documents/a.txt") (by decide),
   (rollback_restores [("s1", snapMoveW)] "s1" 100
      (FS.mk ["/home/user/Documents/new/a.txt", "/home/user/b.txt"] []) snapMoveW
      rfl (by decide) (by decide) (by decide) (by decide)).2.1
      "/home/user/b.txt" (by decide) (by decide)⟩

end FileBuddy
